import Mathlib

/-!
Verification of the `structured-agent-example` repository.

The development shallowly embeds the three Python modules:

* `llm_service.py` — the stub keyword classifier `get_sentiment`;
* `agent.py` — `SentimentAgent.__init__` and `SentimentAgent.run`;
* `real_llm_service.py` — the remote classifier, parameterised over the
  process environment and the remote backend (both are oracles, since the
  network cannot be modelled).

Python strings are Lean `String`s; the dynamically typed `run` argument is
the inductive `PyVal`; Python dictionaries backing the configuration are
association lists; a raised exception is the `Except.error` branch of an
`Except` value.
-/

namespace StructuredAgentExample

/-! ### Python string primitives

Character-by-character models of the Python `str` operations the sources
use: `str.lower()`, `str.strip()` and the substring operator `in`.
-/

/-- Python `s.lower()`: lower-case every character. -/
def strLower (s : String) : String := ⟨s.data.map Char.toLower⟩

/-- Python `s.strip()`: drop leading and trailing whitespace. -/
def strStrip (s : String) : String :=
  ⟨((s.data.dropWhile Char.isWhitespace).reverse.dropWhile Char.isWhitespace).reverse⟩

/-- Substring search on character lists: does `pat` occur contiguously? -/
def listHasSub (pat : List Char) : List Char → Bool
  | [] => pat.isEmpty
  | c :: rest => List.isPrefixOf pat (c :: rest) || listHasSub pat rest

/-- Python `pat in s` for strings: contiguous substring containment. -/
def strIn (pat s : String) : Bool := listHasSub pat.data s.data

/-! ### `llm_service.py` — the stub classifier -/

/-- `get_sentiment(text, model)` from `llm_service.py`.  The `print` and
`time.sleep` calls have no effect on the returned value and are elided; the
returned label is computed exactly as in the source: lower-case the text,
check the three positive keywords, then the three negative keywords, else
neutral. -/
def get_sentiment (text : String) (model : String) : String :=
  let text_lower := strLower text
  if strIn "great" text_lower || strIn "love" text_lower || strIn "excellent" text_lower then
    "positive"
  else if strIn "bad" text_lower || strIn "terrible" text_lower || strIn "hate" text_lower then
    "negative"
  else
    "neutral"

/-- The positive keyword set of the stub classifier, in source order. -/
def positiveKeywords : List String := ["great", "love", "excellent"]

/-- The negative keyword set of the stub classifier, in source order. -/
def negativeKeywords : List String := ["bad", "terrible", "hate"]

/-- Spec-side predicate: the text contains some keyword of the set under
case-insensitive substring matching (both sides case-folded). -/
def containsKeywordCI (text : String) (kws : List String) : Bool :=
  kws.any (fun k => strIn (strLower k) (strLower text))

/-- Spec-side restatement of the classification policy, written from the
spec words: positive keywords first, then negative keywords, else neutral,
each by case-insensitive substring match.  Compared with `get_sentiment`
below. -/
def specSentimentPolicy (text : String) : String :=
  if containsKeywordCI text positiveKeywords then "positive"
  else if containsKeywordCI text negativeKeywords then "negative"
  else "neutral"

/-! ### `agent.py` — the sentiment agent -/

/-- A dynamically typed Python value passed to `run`: a string, an integer,
`None`, or any other object (carrying only its truthiness, which is all the
validation guard can observe of it). -/
inductive PyVal where
  | str (s : String)
  | int (n : Int)
  | pyNone
  | other (truthy : Bool)
deriving DecidableEq, Repr

/-- Python truthiness of a `PyVal` (`not x` negates this). -/
def PyVal.truthy : PyVal → Bool
  | PyVal.str s => s ≠ ""
  | PyVal.int n => n ≠ 0
  | PyVal.pyNone => false
  | PyVal.other t => t

/-- Python `isinstance(x, str)`. -/
def PyVal.isStr : PyVal → Bool
  | PyVal.str _ => true
  | _ => false

/-- The dictionary returned by `run`.  Error responses carry `status`,
`message`, `sentiment`; success responses carry `status`, `input`,
`sentiment`; fields absent from a branch are `none`. -/
structure Response where
  status : String
  message : Option String
  input : Option String
  sentiment : Option String
deriving DecidableEq, Repr

/-- The agent: it stores the configuration dictionary (modelled as an
association list; only string values are consulted by the code).  The
constructor established that the `model_name` key is present, so the
lookup in `run` cannot fail; the structure carries that fact. -/
structure SentimentAgent where
  config : List (String × String)
  hasModel : (config.lookup "model_name").isSome = true

/-- `SentimentAgent.__init__`: raise `ValueError` when the `model_name`
key is absent from the configuration, else store the configuration. -/
def SentimentAgent.init (config : List (String × String)) :
    Except String SentimentAgent :=
  if h : (config.lookup "model_name").isSome then
    Except.ok ⟨config, h⟩
  else
    Except.error "Configuration must include model_name"

/-- The `self.config["model_name"]` lookup performed by `run`. -/
def SentimentAgent.modelName (a : SentimentAgent) : String :=
  (a.config.lookup "model_name").get a.hasModel

/-- A classifier oracle standing for `llm_service.get_sentiment` as seen
from the agent: given text and model it either returns a label or raises
an exception with the given description. -/
abbrev Classifier := String → String → Except String String

/-- Traced outcome of one `run` call: the returned response, the argument
pair of the classifier call when one was made, and the agent state after
the call. -/
structure RunResult where
  resp : Response
  called : Option (String × String)
  post : SentimentAgent

/-- `SentimentAgent.run`, with the classifier call traced.  The source
guard `if not text_input or not isinstance(text_input, str)` rejects a
value exactly when it is a non-string or the empty string; on the valid
path the model name is read from the stored configuration, the classifier
is called inside `try`, and either branch builds the response dictionary
of the source. -/
def SentimentAgent.runT (a : SentimentAgent) (classifier : Classifier)
    (text_input : PyVal) : RunResult :=
  match text_input with
  | PyVal.str s =>
    if s = "" then
      ⟨{ status := "error", message := some "Invalid text input.",
         input := none, sentiment := none }, none, a⟩
    else
      let model_name := a.modelName
      match classifier s model_name with
      | Except.ok sentiment =>
        ⟨{ status := "success", message := none,
           input := some s, sentiment := some sentiment },
         some (s, model_name), a⟩
      | Except.error e =>
        ⟨{ status := "error",
           message := some ("An unexpected error occurred: " ++ e),
           input := none, sentiment := none },
         some (s, model_name), a⟩
  | _ =>
    ⟨{ status := "error", message := some "Invalid text input.",
       input := none, sentiment := none }, none, a⟩

/-- The response returned by `run` (totality of this function is the
never-raises guarantee of the agent boundary). -/
def SentimentAgent.run (a : SentimentAgent) (classifier : Classifier)
    (text_input : PyVal) : Response :=
  (a.runT classifier text_input).resp

/-! ### `real_llm_service.py` — the remote classifier -/

/-- A failure raised by the remote `get_sentiment`: the `RuntimeError` for
a missing credential, or an `anthropic.APIError` from the call. -/
inductive RemoteFailure where
  | runtimeError (msg : String)
  | apiError (msg : String)
deriving DecidableEq, Repr

/-- Traced outcome of one remote `get_sentiment` call: the returned label
or raised failure, whether the remote request was attempted, and whether
the out-of-set warning was emitted. -/
structure RemoteCall where
  outcome : Except RemoteFailure String
  networkCalled : Bool
  warned : Bool

/-- The valid sentiment set of `real_llm_service.py`. -/
def valid_sentiments : List String := ["positive", "negative", "neutral"]

/-- The `RuntimeError` message for a missing API key. -/
def missingKeyMsg : String :=
  "ANTHROPIC_API_KEY environment variable is not set. Get your API key at https://console.anthropic.com/"

/-- Remote `get_sentiment`, parameterised over the process environment
`env` (so `env "ANTHROPIC_API_KEY"` is `os.environ.get(...)`) and the
remote backend (the raw text of the first content block of the reply, or
an API failure).  Mirrors the source: the falsy-key check raises
`RuntimeError` before any client is built; otherwise the reply is
stripped, lower-cased, and validated against `valid_sentiments`, with
out-of-set replies warned about and defaulted to neutral. -/
def real_get_sentiment (env : String → Option String)
    (backend : String → String → Except String String)
    (text : String) (model : String) : RemoteCall :=
  match env "ANTHROPIC_API_KEY" with
  | Option.none =>
    ⟨Except.error (RemoteFailure.runtimeError missingKeyMsg), false, false⟩
  | Option.some api_key =>
    if api_key = "" then
      ⟨Except.error (RemoteFailure.runtimeError missingKeyMsg), false, false⟩
    else
      match backend text model with
      | Except.error e => ⟨Except.error (RemoteFailure.apiError e), true, false⟩
      | Except.ok replyText =>
        let raw_response := strLower (strStrip replyText)
        if valid_sentiments.contains raw_response then
          ⟨Except.ok raw_response, true, false⟩
        else
          ⟨Except.ok "neutral", true, true⟩

/-! ### Claims -/

/-- C7: the stub classifier is a deterministic pure function of the text:
the returned label does not depend on the model argument, so repeated
calls with the same text (and any models) always return the same label. -/
theorem get_sentiment_model_independent (text m₁ m₂ : String) :
    get_sentiment text m₁ = get_sentiment text m₂ := rfl

/-- C6: the stub classifier returns `positive` when the text contains any
positive keyword (case-insensitive substring match), else `negative` when
it contains any negative keyword, else `neutral`, the positive check
taking precedence — i.e. it equals the spec-side policy. -/
theorem get_sentiment_matches_spec_policy (text model : String) :
    get_sentiment text model = specSentimentPolicy text := by
  have hg : strLower "great" = "great" := by decide
  have hl : strLower "love" = "love" := by decide
  have hx : strLower "excellent" = "excellent" := by decide
  have hb : strLower "bad" = "bad" := by decide
  have ht : strLower "terrible" = "terrible" := by decide
  have hh : strLower "hate" = "hate" := by decide
  simp only [get_sentiment, specSentimentPolicy, containsKeywordCI,
    positiveKeywords, negativeKeywords, List.any_cons, List.any_nil,
    hg, hl, hx, hb, ht, hh, Bool.or_false, Bool.or_assoc]

/-- C2: for every input and every classifier outcome, the response of
`run` has a non-null sentiment exactly when its status is success. -/
theorem run_sentiment_present_iff_success (a : SentimentAgent)
    (classifier : Classifier) (v : PyVal) :
    (a.run classifier v).sentiment ≠ none ↔ (a.run classifier v).status = "success" := by
  cases v with
  | str s =>
    by_cases hs : s = ""
    · simp [SentimentAgent.run, SentimentAgent.runT, hs]
    · cases hres : classifier s a.modelName with
      | error e => simp [SentimentAgent.run, SentimentAgent.runT, hs, hres]
      | ok l => simp [SentimentAgent.run, SentimentAgent.runT, hs, hres]
  | int n => simp [SentimentAgent.run, SentimentAgent.runT]
  | pyNone => simp [SentimentAgent.run, SentimentAgent.runT]
  | other t => simp [SentimentAgent.run, SentimentAgent.runT]

/-- C9: `run` never mutates the agent: the stored configuration after any
call is the one stored at construction. -/
theorem run_preserves_config (a : SentimentAgent) (classifier : Classifier)
    (v : PyVal) : (a.runT classifier v).post = a := by
  cases v with
  | str s =>
    by_cases hs : s = ""
    · simp [SentimentAgent.runT, hs]
    · cases hres : classifier s a.modelName <;>
        simp [SentimentAgent.runT, hs, hres]
  | int n => rfl
  | pyNone => rfl
  | other t => rfl

/-- C1: for every non-empty string input, when the classifier raises, `run`
returns (rather than raises) the structured error response whose message is
the fixed prefix followed by the failure description, with null sentiment. -/
theorem run_absorbs_classifier_failure (a : SentimentAgent)
    (classifier : Classifier) (s e : String) (hs : s ≠ "")
    (hc : classifier s a.modelName = Except.error e) :
    a.run classifier (PyVal.str s) =
      { status := "error",
        message := some ("An unexpected error occurred: " ++ e),
        input := none, sentiment := none } := by
  simp [SentimentAgent.run, SentimentAgent.runT, hs, hc]

/-- Witness for C1 at a concrete agent, classifier failure and input. -/
theorem run_absorbs_classifier_failure_witness :
    SentimentAgent.run ⟨[("model_name", "test-model-v1")], by decide⟩
      (fun _ _ => Except.error "API connection failed") (PyVal.str "Some input.") =
      { status := "error",
        message := some ("An unexpected error occurred: " ++ "API connection failed"),
        input := none, sentiment := none } :=
  run_absorbs_classifier_failure ⟨[("model_name", "test-model-v1")], by decide⟩
    (fun _ _ => Except.error "API connection failed")
    "Some input." "API connection failed" (by decide) rfl

/-- C3: for every non-string or empty-string input, `run` answers the
invalid-input error response and never calls the classifier. -/
theorem run_invalid_input_short_circuits (a : SentimentAgent)
    (classifier : Classifier) (v : PyVal)
    (h : v.isStr = false ∨ v = PyVal.str "") :
    (a.runT classifier v).resp =
      { status := "error", message := some "Invalid text input.",
        input := none, sentiment := none } ∧
    (a.runT classifier v).called = none := by
  rcases h with h | h
  · cases v with
    | str s => simp [PyVal.isStr] at h
    | int n => exact ⟨rfl, rfl⟩
    | pyNone => exact ⟨rfl, rfl⟩
    | other t => exact ⟨rfl, rfl⟩
  · subst h; exact ⟨rfl, rfl⟩

/-- Witness for C3 at a concrete agent and the integer input 12345. -/
theorem run_invalid_input_short_circuits_witness :
    (SentimentAgent.runT ⟨[("model_name", "test-model-v1")], by decide⟩
        (fun _ _ => Except.ok "positive") (PyVal.int 12345)).resp =
      { status := "error", message := some "Invalid text input.",
        input := none, sentiment := none } ∧
    (SentimentAgent.runT ⟨[("model_name", "test-model-v1")], by decide⟩
        (fun _ _ => Except.ok "positive") (PyVal.int 12345)).called = none :=
  run_invalid_input_short_circuits ⟨[("model_name", "test-model-v1")], by decide⟩
    (fun _ _ => Except.ok "positive") (PyVal.int 12345) (Or.inl rfl)

/-- C4: for every non-empty string input on which the classifier succeeds,
`run` calls the classifier with the text and the configured model name and
returns success, the text unmodified, and the returned label. -/
theorem run_success_returns_input_and_label (a : SentimentAgent)
    (classifier : Classifier) (s label : String) (hs : s ≠ "")
    (hc : classifier s a.modelName = Except.ok label) :
    (a.runT classifier (PyVal.str s)).called = some (s, a.modelName) ∧
    (a.runT classifier (PyVal.str s)).resp =
      { status := "success", message := none,
        input := some s, sentiment := some label } := by
  simp [SentimentAgent.runT, hs, hc]

/-- Witness for C4 at a concrete agent and an input with surrounding
whitespace, showing the echoed input is byte-for-byte the original. -/
theorem run_success_returns_input_and_label_witness :
    (SentimentAgent.runT ⟨[("model_name", "test-model-v1")], by decide⟩
        (fun s m => Except.ok (get_sentiment s m))
        (PyVal.str "  Whitespace around great text  ")).called =
      some ("  Whitespace around great text  ", "test-model-v1") ∧
    (SentimentAgent.runT ⟨[("model_name", "test-model-v1")], by decide⟩
        (fun s m => Except.ok (get_sentiment s m))
        (PyVal.str "  Whitespace around great text  ")).resp =
      { status := "success", message := none,
        input := some "  Whitespace around great text  ",
        sentiment := some "positive" } :=
  run_success_returns_input_and_label ⟨[("model_name", "test-model-v1")], by decide⟩
    (fun s m => Except.ok (get_sentiment s m))
    "  Whitespace around great text  " "positive" (by decide) rfl

/-- C5: construction fails exactly when the configuration lacks the
`model_name` key; the empty configuration is rejected, and
`[("model_name", "x")]` is accepted, stored as is, with model name x. -/
theorem init_requires_model_name :
    (∀ config : List (String × String),
        (∃ e, SentimentAgent.init config = Except.error e) ↔
          config.lookup "model_name" = Option.none) ∧
    (∃ e, SentimentAgent.init ([] : List (String × String)) = Except.error e) ∧
    (∃ a, SentimentAgent.init [("model_name", "x")] = Except.ok a ∧
        a.config = [("model_name", "x")] ∧ a.modelName = "x") := by
  refine ⟨?_, ?_, ?_⟩
  · intro config
    cases hcfg : config.lookup "model_name" with
    | none =>
      have hns : ¬(config.lookup "model_name").isSome = true := by
        rw [hcfg]; simp
      exact ⟨fun _ => rfl,
        fun _ => ⟨_, by rw [SentimentAgent.init, dif_neg hns]⟩⟩
    | some m =>
      have hsome : (config.lookup "model_name").isSome = true := by
        rw [hcfg]; rfl
      constructor
      · rintro ⟨e, he⟩
        rw [SentimentAgent.init, dif_pos hsome] at he
        exact absurd he (by simp)
      · intro hnone
        exact absurd hnone (by simp)
  · exact ⟨"Configuration must include model_name", rfl⟩
  · exact ⟨⟨[("model_name", "x")], by decide⟩, rfl, rfl, rfl⟩

/-- Witness for C5: a configuration carrying only an unrelated key is
rejected by the constructor. -/
theorem init_requires_model_name_witness :
    ∃ e, SentimentAgent.init [("temperature", "high")] = Except.error e :=
  (init_requires_model_name.1 [("temperature", "high")]).mpr (by decide)

/-- C8: whenever the remote classifier reaches and hears from the backend,
the replied string is stripped and case-folded, and the returned label is
always in the valid sentiment set, out-of-set replies being warned about
and defaulted to neutral. -/
theorem remote_label_always_in_valid_set (env : String → Option String)
    (backend : String → String → Except String String)
    (text model k r : String)
    (hk : env "ANTHROPIC_API_KEY" = some k) (hknz : k ≠ "")
    (hb : backend text model = Except.ok r) :
    ∃ label, (real_get_sentiment env backend text model).outcome = Except.ok label ∧
      valid_sentiments.contains label = true ∧
      (valid_sentiments.contains (strLower (strStrip r)) = false →
        label = "neutral" ∧ (real_get_sentiment env backend text model).warned = true) := by
  by_cases hv : valid_sentiments.contains (strLower (strStrip r)) = true
  · have hmem : strLower (strStrip r) ∈ valid_sentiments := by simpa using hv
    refine ⟨strLower (strStrip r), ?_, hv, ?_⟩
    · simp [real_get_sentiment, hk, hknz, hb, hmem]
    · intro hfalse; rw [hv] at hfalse; cases hfalse
  · have hnmem : strLower (strStrip r) ∉ valid_sentiments := by
      intro hm
      exact hv (by simpa using hm)
    refine ⟨"neutral", ?_, by decide, fun _ => ⟨rfl, ?_⟩⟩
    · simp [real_get_sentiment, hk, hknz, hb, hnmem]
    · simp [real_get_sentiment, hk, hknz, hb, hnmem]

/-- Witness for C8: the backend replying with out-of-set text, surrounded
by whitespace and capitalised, yields the neutral label with a warning. -/
theorem remote_label_always_in_valid_set_witness :
    ∃ label, (real_get_sentiment (fun _ => some "sk-key")
        (fun _ _ => Except.ok " Mixed ") "t" "m").outcome = Except.ok label ∧
      valid_sentiments.contains label = true ∧
      (valid_sentiments.contains (strLower (strStrip " Mixed ")) = false →
        label = "neutral" ∧ (real_get_sentiment (fun _ => some "sk-key")
          (fun _ _ => Except.ok " Mixed ") "t" "m").warned = true) :=
  remote_label_always_in_valid_set (fun _ => some "sk-key")
    (fun _ _ => Except.ok " Mixed ") "t" "m" "sk-key" " Mixed " rfl (by decide) rfl

/-- C10: with the API key unset or empty, the remote classifier raises its
`RuntimeError` without any network call, and that failure is a different
constructor from every API failure. -/
theorem remote_missing_key_no_network (env : String → Option String)
    (backend : String → String → Except String String) (text model : String)
    (h : env "ANTHROPIC_API_KEY" = Option.none ∨ env "ANTHROPIC_API_KEY" = some "") :
    (real_get_sentiment env backend text model).networkCalled = false ∧
    (real_get_sentiment env backend text model).outcome =
      Except.error (RemoteFailure.runtimeError missingKeyMsg) ∧
    (∀ msg e, RemoteFailure.runtimeError msg ≠ RemoteFailure.apiError e) := by
  have hdist : ∀ msg e, RemoteFailure.runtimeError msg ≠ RemoteFailure.apiError e :=
    fun msg e hEq => RemoteFailure.noConfusion hEq
  rcases h with h | h
  · exact ⟨by simp [real_get_sentiment, h], by simp [real_get_sentiment, h], hdist⟩
  · exact ⟨by simp [real_get_sentiment, h], by simp [real_get_sentiment, h], hdist⟩

/-- Witness for C10: an environment with no API key makes no network call
and raises the runtime error. -/
theorem remote_missing_key_no_network_witness :
    (real_get_sentiment (fun _ => Option.none)
        (fun _ _ => Except.ok "positive") "t" "m").networkCalled = false ∧
    (real_get_sentiment (fun _ => Option.none)
        (fun _ _ => Except.ok "positive") "t" "m").outcome =
      Except.error (RemoteFailure.runtimeError missingKeyMsg) ∧
    (∀ msg e, RemoteFailure.runtimeError msg ≠ RemoteFailure.apiError e) :=
  remote_missing_key_no_network (fun _ => Option.none)
    (fun _ _ => Except.ok "positive") "t" "m" (Or.inl rfl)

end StructuredAgentExample
